import Mathlib

set_option linter.unusedSectionVars false

/-!
Shallow embedding of the BWIC backend recommendation pipeline.

The embedding covers `src/utils/recommendation.ts` (hard filters and the
weighted scoring function) and the orchestration logic of
`src/controller/recommendation.controller.ts` (sanitization, validation,
pagination).  JavaScript numbers are modelled as the elements of a linear
ordered field with a floor (instantiated at `ℚ` for executable witnesses and
at `ℝ` when the haversine distance, which uses transcendental functions, is
involved).  JavaScript strings are modelled as Lean strings together with
executable helpers mirroring `toLowerCase`, `includes` and `trim`.
-/

/-- Character-list test mirroring the prefix test underlying
`String.prototype.includes`. -/
def strStartsWith : List Char → List Char → Bool
  | _, [] => true
  | [], _ :: _ => false
  | h :: hs, n :: ns => h = n && strStartsWith hs ns

/-- Substring occurrence test on character lists. -/
def jsIncludesAux (hay needle : List Char) : Bool :=
  match hay with
  | [] => strStartsWith [] needle
  | _ :: rest => strStartsWith hay needle || jsIncludesAux rest needle

/-- Model of `hay.includes(needle)` from JavaScript. -/
def jsIncludes (hay needle : String) : Bool :=
  jsIncludesAux hay.data needle.data

/-- Model of `s.toLowerCase()`; executable counterpart of `String.toLower`. -/
def lowerStr (s : String) : String := String.mk (s.data.map Char.toLower)

/-- Model of `s.trim()`. -/
def trimStr (s : String) : String :=
  String.mk (((s.data.dropWhile Char.isWhitespace).reverse.dropWhile
    Char.isWhitespace).reverse)

/-- JavaScript truthiness of an optional string (`undefined` and `""` are
falsy). -/
def strTruthy : Option String → Bool
  | none => false
  | some s => s ≠ ""

section RecommendationModel

variable {α : Type} [LinearOrderedField α] [FloorRing α]

/-- Model of `Math.round` (half rounds toward positive infinity). -/
def jsRound (x : α) : ℤ := ⌊x + 1/2⌋

/-- `round2` from `src/utils/recommendation.ts`:
`Math.round(value * 100) / 100`. -/
def round2 (x : α) : α := ((⌊x * 100 + 1/2⌋ : ℤ) : α) / 100

/-- `safeRatioScore` from `src/utils/recommendation.ts`:
`round2(weight * Math.max(0, 1 - deltaRatio))`. -/
def safeRatioScore (weight deltaRatio : α) : α :=
  round2 (weight * max 0 (1 - deltaRatio))

/-- `RecommendationMustHave` from `src/utils/recommendation.ts`. -/
structure RecommendationMustHave (α : Type) where
  location : Option String := none
  categoryId : Option α := none
  minPrice : Option α := none
  maxPrice : Option α := none
  minRoi : Option α := none
  minArea : Option α := none
  maxDistanceFromHighway : Option α := none
  status : Option String := none
deriving DecidableEq

/-- `RecommendationPreferences` from `src/utils/recommendation.ts`. -/
structure RecommendationPreferences (α : Type) where
  location : Option String := none
  latitude : Option α := none
  longitude : Option α := none
  locationRadiusKm : Option α := none
  budget : Option α := none
  roiPercent : Option α := none
  areaSqft : Option α := none
  maxDistanceFromHighway : Option α := none
deriving DecidableEq

/-- `RecommendationProperty` from `src/utils/recommendation.ts`; `null` and
`undefined` field values are both modelled as `none`. -/
structure RecommendationProperty (α : Type) where
  id : Option α := none
  title : String := ""
  location : String
  categoryId : α
  status : String
  latitude : Option α := none
  longitude : Option α := none
  priceNpr : Option α := none
  roiPercent : Option α := none
  areaSqft : Option α := none
  distanceFromHighway : Option α := none
deriving DecidableEq

/-- `RecommendationExplanation` from `src/utils/recommendation.ts`.  The
interpolated numeric values of the reason strings are not reproduced; each
source branch keeps a distinct constant message. -/
structure RecommendationExplanation (α : Type) where
  reason : String
  points : α
deriving DecidableEq

/-- `RecommendationScore` from `src/utils/recommendation.ts`. -/
structure RecommendationScore (α : Type) where
  score : α
  maxPossible : α
  matchPercentage : α
  explanation : List (RecommendationExplanation α)
deriving DecidableEq

/-- The location check of `applyHardFilters`
(`src/utils/recommendation.ts`, lines 92-97): `mustHave.location &&` is a
truthiness test, so an absent or empty constraint passes; otherwise a
case-insensitive substring test. -/
def locationCheck (mustHave : RecommendationMustHave α)
    (property : RecommendationProperty α) : Bool :=
  match mustHave.location with
  | some loc => loc = "" || jsIncludes (lowerStr property.location) (lowerStr loc)
  | none => true

/-- The category check of `applyHardFilters` (lines 99-104): exact equality
when `categoryId` is present. -/
def categoryCheck (mustHave : RecommendationMustHave α)
    (property : RecommendationProperty α) : Bool :=
  match mustHave.categoryId with
  | some c => property.categoryId = c
  | none => true

/-- The status check of `applyHardFilters` (lines 106-111):
`mustHave.status &&` is a truthiness test, so an absent or empty constraint
passes; otherwise case-insensitive exact equality. -/
def statusCheck (mustHave : RecommendationMustHave α)
    (property : RecommendationProperty α) : Bool :=
  match mustHave.status with
  | some st => st = "" || lowerStr property.status = lowerStr st
  | none => true

/-- The minPrice check of `applyHardFilters` (lines 113-117): an absent price
fails when the bound is set; otherwise `price < minPrice` fails. -/
def minPriceCheck (mustHave : RecommendationMustHave α)
    (property : RecommendationProperty α) : Bool :=
  match mustHave.minPrice with
  | some mn =>
    (match property.priceNpr with
     | some price => !(decide (price < mn))
     | none => false)
  | none => true

/-- The maxPrice check of `applyHardFilters` (lines 119-123). -/
def maxPriceCheck (mustHave : RecommendationMustHave α)
    (property : RecommendationProperty α) : Bool :=
  match mustHave.maxPrice with
  | some mx =>
    (match property.priceNpr with
     | some price => !(decide (mx < price))
     | none => false)
  | none => true

/-- The minRoi check of `applyHardFilters` (lines 125-129). -/
def minRoiCheck (mustHave : RecommendationMustHave α)
    (property : RecommendationProperty α) : Bool :=
  match mustHave.minRoi with
  | some mn =>
    (match property.roiPercent with
     | some roi => !(decide (roi < mn))
     | none => false)
  | none => true

/-- The minArea check of `applyHardFilters` (lines 131-135). -/
def minAreaCheck (mustHave : RecommendationMustHave α)
    (property : RecommendationProperty α) : Bool :=
  match mustHave.minArea with
  | some mn =>
    (match property.areaSqft with
     | some area => !(decide (area < mn))
     | none => false)
  | none => true

/-- The maxDistanceFromHighway check of `applyHardFilters` (lines 137-147). -/
def maxDistanceCheck (mustHave : RecommendationMustHave α)
    (property : RecommendationProperty α) : Bool :=
  match mustHave.maxDistanceFromHighway with
  | some mx =>
    (match property.distanceFromHighway with
     | some dist => !(decide (mx < dist))
     | none => false)
  | none => true

/-- The per-listing predicate of `applyHardFilters`
(`src/utils/recommendation.ts`, lines 91-150): one conjunct per early-return
check, in source order. -/
def propertyPasses (mustHave : RecommendationMustHave α)
    (property : RecommendationProperty α) : Bool :=
  locationCheck mustHave property &&
  categoryCheck mustHave property &&
  statusCheck mustHave property &&
  minPriceCheck mustHave property &&
  maxPriceCheck mustHave property &&
  minRoiCheck mustHave property &&
  minAreaCheck mustHave property &&
  maxDistanceCheck mustHave property

/-- `applyHardFilters` from `src/utils/recommendation.ts` (lines 87-151). -/
def applyHardFilters (properties : List (RecommendationProperty α))
    (mustHave : RecommendationMustHave α) : List (RecommendationProperty α) :=
  properties.filter (fun property => propertyPasses mustHave property)

/-- The effective search radius of the location criterion
(`src/utils/recommendation.ts`, lines 168-172):
`locationRadiusKm !== undefined && locationRadiusKm > 0 ? locationRadiusKm : 10`. -/
def radiusKm (preferences : RecommendationPreferences α) : α :=
  match preferences.locationRadiusKm with
  | some rad => if 0 < rad then rad else 10
  | none => 10

/-- The location criterion of `scoreProperty`
(`src/utils/recommendation.ts`, lines 161-225).  `none` means the criterion is
inactive (it contributes neither points nor weight and emits no explanation
entry).  The geodesic distance function is a parameter `hav`; the controller
instantiates it with the haversine distance. -/
def locationCriterion (hav : α → α → α → α → α)
    (property : RecommendationProperty α)
    (preferences : RecommendationPreferences α) :
    Option (RecommendationExplanation α) :=
  match preferences.latitude, preferences.longitude with
  | some plat, some plng =>
    match property.latitude, property.longitude with
    | some lat, some lng =>
      some ⟨"Location scored by distance from preferred point",
        safeRatioScore 25 (hav plat plng lat lng / radiusKm preferences)⟩
    | _, _ =>
      match preferences.location with
      | some loc =>
        if loc = "" then
          some ⟨"Property coordinates missing, could not score geo-distance", 0⟩
        else if jsIncludes (lowerStr property.location) (lowerStr loc) then
          some ⟨"Property coordinates missing, text location fallback matched", 25⟩
        else
          some ⟨"Property coordinates missing, text location fallback did not match", 0⟩
      | none =>
        some ⟨"Property coordinates missing, could not score geo-distance", 0⟩
  | _, _ =>
    match preferences.location with
    | some loc =>
      if loc = "" then none
      else if jsIncludes (lowerStr property.location) (lowerStr loc) then
        some ⟨"Location text matched preference", 25⟩
      else
        some ⟨"Location text did not match preference", 0⟩
    | none => none

/-- The price criterion of `scoreProperty`
(`src/utils/recommendation.ts`, lines 227-245). -/
def priceCriterion (property : RecommendationProperty α)
    (preferences : RecommendationPreferences α) :
    Option (RecommendationExplanation α) :=
  match preferences.budget with
  | some budget =>
    if 0 < budget then
      some (match property.priceNpr with
        | none => ⟨"Price missing, could not score budget closeness", 0⟩
        | some price =>
          ⟨"Budget closeness scored against NPR",
            safeRatioScore 30 (|price - budget| / budget)⟩)
    else none
  | none => none

/-- The ROI criterion of `scoreProperty`
(`src/utils/recommendation.ts`, lines 247-265). -/
def roiCriterion (property : RecommendationProperty α)
    (preferences : RecommendationPreferences α) :
    Option (RecommendationExplanation α) :=
  match preferences.roiPercent with
  | some pref =>
    if 0 < pref then
      some (match property.roiPercent with
        | none => ⟨"ROI missing, could not score ROI preference", 0⟩
        | some roi =>
          ⟨"ROI scored against preferred percentage",
            if pref ≤ roi then 15 else round2 (15 * max 0 (roi / pref))⟩)
    else none
  | none => none

/-- The area criterion of `scoreProperty`
(`src/utils/recommendation.ts`, lines 267-285). -/
def areaCriterion (property : RecommendationProperty α)
    (preferences : RecommendationPreferences α) :
    Option (RecommendationExplanation α) :=
  match preferences.areaSqft with
  | some pref =>
    if 0 < pref then
      some (match property.areaSqft with
        | none => ⟨"Area missing, could not score area preference", 0⟩
        | some area =>
          ⟨"Area closeness scored against preferred square feet",
            safeRatioScore 15 (|area - pref| / pref)⟩)
    else none
  | none => none

/-- The distance-from-highway criterion of `scoreProperty`
(`src/utils/recommendation.ts`, lines 287-315). -/
def distanceCriterion (property : RecommendationProperty α)
    (preferences : RecommendationPreferences α) :
    Option (RecommendationExplanation α) :=
  match preferences.maxDistanceFromHighway with
  | some bound =>
    if 0 < bound then
      some (match property.distanceFromHighway with
        | none => ⟨"Distance from highway missing, could not score distance preference", 0⟩
        | some dist =>
          ⟨"Distance scored against preferred max",
            if dist ≤ bound then 15 else safeRatioScore 15 ((dist - bound) / bound)⟩)
    else none
  | none => none

/-- Pack one criterion outcome with its weight from the `WEIGHTS` table. -/
def critList (weight : α) :
    Option (RecommendationExplanation α) → List (α × RecommendationExplanation α)
  | none => []
  | some e => [(weight, e)]

/-- The weighted outcomes of all active criteria, in the evaluation order of
the source (location, price, roi, area, distance) with the `WEIGHTS` constants
`location=25, price=30, roi=15, area=15, distance=15`. -/
def scoreCriteria (hav : α → α → α → α → α)
    (property : RecommendationProperty α)
    (preferences : RecommendationPreferences α) :
    List (α × RecommendationExplanation α) :=
  critList 25 (locationCriterion hav property preferences) ++
  critList 30 (priceCriterion property preferences) ++
  critList 15 (roiCriterion property preferences) ++
  critList 15 (areaCriterion property preferences) ++
  critList 15 (distanceCriterion property preferences)

/-- `scoreProperty` from `src/utils/recommendation.ts` (lines 153-326).
The accumulated raw score is the sum of the per-criterion points (each
criterion already rounds its own points); `matchPercentage` is computed from
the raw sum and the returned `score` is `round2` of it, exactly as in the
source. -/
def scoreProperty (hav : α → α → α → α → α)
    (property : RecommendationProperty α)
    (preferences : RecommendationPreferences α) : RecommendationScore α :=
  let entries := scoreCriteria hav property preferences
  let total := (entries.map (fun e => e.2.points)).sum
  let maxPossible := (entries.map (fun e => e.1)).sum
  { score := round2 total
    maxPossible := maxPossible
    matchPercentage :=
      if maxPossible = 0 then 0 else ((jsRound (total / maxPossible * 100) : ℤ) : α)
    explanation := entries.map (fun e => e.2) }

end RecommendationModel

/-- Degree-to-radian conversion from `haversineKm`
(`src/utils/recommendation.ts`, line 70). -/
noncomputable def toRad (deg : ℝ) : ℝ := deg * Real.pi / 180

/-- Model of JavaScript `Math.atan2` on non-NaN inputs (ignoring the signed
zero distinction). -/
noncomputable def jsAtan2 (y x : ℝ) : ℝ :=
  if 0 < x then Real.arctan (y / x)
  else if x < 0 then
    (if 0 ≤ y then Real.arctan (y / x) + Real.pi else Real.arctan (y / x) - Real.pi)
  else
    (if 0 < y then Real.pi / 2 else if y < 0 then -(Real.pi / 2) else 0)

/-- `haversineKm` from `src/utils/recommendation.ts` (lines 64-85): great
circle distance with Earth radius 6371 km. -/
noncomputable def haversineKm (lat1 lng1 lat2 lng2 : ℝ) : ℝ :=
  let dLat := toRad (lat2 - lat1)
  let dLng := toRad (lng2 - lng1)
  let a := Real.sin (dLat / 2) * Real.sin (dLat / 2) +
    Real.cos (toRad lat1) * Real.cos (toRad lat2) *
      Real.sin (dLng / 2) * Real.sin (dLng / 2)
  let c := 2 * jsAtan2 (Real.sqrt a) (Real.sqrt (1 - a))
  6371 * c

section ControllerModel

variable {α : Type} [LinearOrderedField α] [FloorRing α]

/-- `input.location?.trim() || undefined`: trim, and turn an absent or empty
result into `none`. -/
def trimToOption (s : Option String) : Option String :=
  match s with
  | none => none
  | some s => if trimStr s = "" then none else some (trimStr s)

/-- `RecommendationRequestBody` from
`src/controller/recommendation.controller.ts`.  Numeric fields are modelled as
already-parsed numbers or absent; `parseNumber` is the identity on present
numbers in this model (`NaN` and string payloads are outside the embedding). -/
structure RecommendationRequestBody (α : Type) where
  mustHave : Option (RecommendationMustHave α) := none
  preferences : Option (RecommendationPreferences α) := none
  page : Option α := none
  limit : Option α := none

/-- `sanitizeMustHave` from `src/controller/recommendation.controller.ts`
(lines 67-80). -/
def sanitizeMustHave (input : Option (RecommendationMustHave α)) :
    RecommendationMustHave α :=
  match input with
  | none => {}
  | some i =>
    { location := trimToOption i.location
      categoryId := i.categoryId
      minPrice := i.minPrice
      maxPrice := i.maxPrice
      minRoi := i.minRoi
      minArea := i.minArea
      maxDistanceFromHighway := i.maxDistanceFromHighway
      status := trimToOption i.status }

/-- `sanitizePreferences` from `src/controller/recommendation.controller.ts`
(lines 82-97). -/
def sanitizePreferences (input : Option (RecommendationPreferences α)) :
    RecommendationPreferences α :=
  match input with
  | none => {}
  | some i =>
    { location := trimToOption i.location
      latitude := i.latitude
      longitude := i.longitude
      locationRadiusKm := i.locationRadiusKm
      budget := i.budget
      roiPercent := i.roiPercent
      areaSqft := i.areaSqft
      maxDistanceFromHighway := i.maxDistanceFromHighway }

/-- The geocoding step of `getRecommendations`
(`src/controller/recommendation.controller.ts`, lines 106-116): when a text
location is present and a coordinate is missing, a successful lookup fills in
both coordinates; a `null` lookup leaves the preferences unchanged.
`geocodeLocation` itself performs network access and always resolves (never
throws), so it is modelled as an oracle `String → Option (α × α)`. -/
def resolveCoordinates (geocode : String → Option (α × α))
    (preferences : RecommendationPreferences α) : RecommendationPreferences α :=
  match preferences.location with
  | some loc =>
    if loc = "" then preferences
    else if preferences.latitude = none ∨ preferences.longitude = none then
      match geocode loc with
      | some (la, ln) => { preferences with latitude := some la, longitude := some ln }
      | none => preferences
    else preferences
  | none => preferences

/-- Model of `Math.trunc` (round toward zero). -/
def jsTrunc (x : α) : ℤ := if x < 0 then ⌈x⌉ else ⌊x⌋

/-- JavaScript `v || dflt` on an optional number (`undefined` and `0` are
falsy). -/
def jsOrNum (v : Option α) (dflt : α) : α :=
  match v with
  | some x => if x = 0 then dflt else x
  | none => dflt

/-- One ranked element of the response payload
(`src/controller/recommendation.controller.ts`, lines 181-190). -/
structure RankedProperty (α : Type) where
  property : RecommendationProperty α
  matchPercentage : α
  score : α
  explanation : List (RecommendationExplanation α)
deriving DecidableEq

/-- The comparator `(a, b) => b.score - a.score || b.matchPercentage -
a.matchPercentage` (descending score, ties by descending match percentage,
stable otherwise). -/
def rankedBefore (a b : RankedProperty α) : Bool :=
  decide (b.score < a.score) ||
    (decide (a.score = b.score) && decide (b.matchPercentage ≤ a.matchPercentage))

/-- Pagination metadata of the response
(`src/controller/recommendation.controller.ts`, lines 200-207). -/
structure Pagination where
  page : ℤ
  limit : ℤ
  total : ℕ
  totalPages : ℤ
  hasNext : Bool
  hasPrev : Bool
deriving DecidableEq

/-- Outcome of a `getRecommendations` call: the 400 validation response or the
200 payload.  (The catch-all 500 branch is unreachable in the model: every
modelled step is total.) -/
inductive HandlerResult (α : Type) where
  | badRequest (message : String)
  | ok (data : List (RankedProperty α)) (pagination : Pagination)
deriving DecidableEq

/-- `getRecommendations` from `src/controller/recommendation.controller.ts`
(lines 99-216).  The catalog (`Property.findAll` with the `where` clause built
from the sanitized must-have constraints) is modelled as an oracle `findAll`
receiving those constraints; the geodesic distance and the geocoder are the
oracles `hav` and `geocode`. -/
def getRecommendations (hav : α → α → α → α → α)
    (geocode : String → Option (α × α))
    (findAll : RecommendationMustHave α → List (RecommendationProperty α))
    (body : RecommendationRequestBody α) : HandlerResult α :=
  let mustHave := sanitizeMustHave body.mustHave
  let preferences := resolveCoordinates geocode (sanitizePreferences body.preferences)
  let page : ℤ := max 1 (jsTrunc (jsOrNum body.page 1))
  let limit : ℤ := min 50 (max 1 (jsTrunc (jsOrNum body.limit 20)))
  if (match mustHave.minPrice, mustHave.maxPrice with
      | some mn, some mx => decide (mx < mn)
      | _, _ => false) = true then
    .badRequest "Invalid constraints: minPrice cannot be greater than maxPrice"
  else
    let candidates := findAll mustHave
    let hardFiltered := applyHardFilters candidates mustHave
    let ranked := (hardFiltered.map (fun property =>
      let scored := scoreProperty hav property preferences
      RankedProperty.mk property scored.matchPercentage scored.score
        scored.explanation)).mergeSort rankedBefore
    let total := ranked.length
    let totalPages : ℤ := max 1 ⌈(total : α) / (limit : α)⌉
    let offset := (page - 1) * limit
    let data := (ranked.drop offset.toNat).take limit.toNat
    .ok data
      ⟨page, limit, total, totalPages, decide (page < totalPages), decide (1 < page)⟩

end ControllerModel

section SpecSidePredicates

variable {α : Type} [LinearOrderedField α] [FloorRing α]

/-- Location clause exactly as claim C1 states it: listing location
lower-cased contains the constraint lower-cased as a substring. -/
def locationClaimCheck (mustHave : RecommendationMustHave α)
    (property : RecommendationProperty α) : Bool :=
  match mustHave.location with
  | some loc => jsIncludes (lowerStr property.location) (lowerStr loc)
  | none => true

/-- Status clause exactly as claim C1 states it: case-insensitive exact
equality whenever `status` is present. -/
def statusClaimCheck (mustHave : RecommendationMustHave α)
    (property : RecommendationProperty α) : Bool :=
  match mustHave.status with
  | some st => lowerStr property.status = lowerStr st
  | none => true

/-- minPrice clause as the claim states it: price present and at least the
bound. -/
def minPriceClaimCheck (mustHave : RecommendationMustHave α)
    (property : RecommendationProperty α) : Bool :=
  match mustHave.minPrice with
  | some mn =>
    (match property.priceNpr with
     | some price => decide (mn ≤ price)
     | none => false)
  | none => true

/-- maxPrice clause as the claim states it: price present and at most the
bound. -/
def maxPriceClaimCheck (mustHave : RecommendationMustHave α)
    (property : RecommendationProperty α) : Bool :=
  match mustHave.maxPrice with
  | some mx =>
    (match property.priceNpr with
     | some price => decide (price ≤ mx)
     | none => false)
  | none => true

/-- minRoi clause as the claim states it: ROI present and at least the
bound. -/
def minRoiClaimCheck (mustHave : RecommendationMustHave α)
    (property : RecommendationProperty α) : Bool :=
  match mustHave.minRoi with
  | some mn =>
    (match property.roiPercent with
     | some roi => decide (mn ≤ roi)
     | none => false)
  | none => true

/-- minArea clause as the claim states it: area present and at least the
bound. -/
def minAreaClaimCheck (mustHave : RecommendationMustHave α)
    (property : RecommendationProperty α) : Bool :=
  match mustHave.minArea with
  | some mn =>
    (match property.areaSqft with
     | some area => decide (mn ≤ area)
     | none => false)
  | none => true

/-- maxDistanceFromHighway clause as the claim states it: distance present and
at most the bound. -/
def maxDistanceClaimCheck (mustHave : RecommendationMustHave α)
    (property : RecommendationProperty α) : Bool :=
  match mustHave.maxDistanceFromHighway with
  | some mx =>
    (match property.distanceFromHighway with
     | some dist => decide (dist ≤ mx)
     | none => false)
  | none => true

/-- The per-listing predicate exactly as claim C1 states it: every present
constraint field is active. -/
def satisfiesClaimMustHave (mustHave : RecommendationMustHave α)
    (property : RecommendationProperty α) : Bool :=
  locationClaimCheck mustHave property &&
  categoryCheck mustHave property &&
  statusClaimCheck mustHave property &&
  minPriceClaimCheck mustHave property &&
  maxPriceClaimCheck mustHave property &&
  minRoiClaimCheck mustHave property &&
  minAreaClaimCheck mustHave property &&
  maxDistanceClaimCheck mustHave property

/-- The predicate of claim C1 amended as the code forces: identical to
`satisfiesClaimMustHave` except that a present-but-empty status string, like
an absent one, imposes no restriction. -/
def satisfiesAmendedMustHave (mustHave : RecommendationMustHave α)
    (property : RecommendationProperty α) : Bool :=
  locationClaimCheck mustHave property &&
  categoryCheck mustHave property &&
  statusCheck mustHave property &&
  minPriceClaimCheck mustHave property &&
  maxPriceClaimCheck mustHave property &&
  minRoiClaimCheck mustHave property &&
  minAreaClaimCheck mustHave property &&
  maxDistanceClaimCheck mustHave property

theorem jsIncludes_empty (s : String) : jsIncludes s "" = true := by
  unfold jsIncludes
  cases s.data <;> simp [jsIncludesAux, strStartsWith]

theorem locationCheck_eq_claim (mustHave : RecommendationMustHave α)
    (property : RecommendationProperty α) :
    locationCheck mustHave property = locationClaimCheck mustHave property := by
  unfold locationCheck locationClaimCheck
  cases mustHave.location with
  | none => rfl
  | some loc =>
    by_cases hl : loc = ""
    · subst hl
      have : lowerStr "" = "" := rfl
      simp [this, jsIncludes_empty]
    · simp [hl]

theorem minPriceCheck_eq_claim (mustHave : RecommendationMustHave α)
    (property : RecommendationProperty α) :
    minPriceCheck mustHave property = minPriceClaimCheck mustHave property := by
  unfold minPriceCheck minPriceClaimCheck
  cases mustHave.minPrice <;> cases property.priceNpr <;>
    simp [← decide_not, not_le, not_lt]

theorem maxPriceCheck_eq_claim (mustHave : RecommendationMustHave α)
    (property : RecommendationProperty α) :
    maxPriceCheck mustHave property = maxPriceClaimCheck mustHave property := by
  unfold maxPriceCheck maxPriceClaimCheck
  cases mustHave.maxPrice <;> cases property.priceNpr <;>
    simp [← decide_not, not_le, not_lt]

theorem minRoiCheck_eq_claim (mustHave : RecommendationMustHave α)
    (property : RecommendationProperty α) :
    minRoiCheck mustHave property = minRoiClaimCheck mustHave property := by
  unfold minRoiCheck minRoiClaimCheck
  cases mustHave.minRoi <;> cases property.roiPercent <;>
    simp [← decide_not, not_le, not_lt]

theorem minAreaCheck_eq_claim (mustHave : RecommendationMustHave α)
    (property : RecommendationProperty α) :
    minAreaCheck mustHave property = minAreaClaimCheck mustHave property := by
  unfold minAreaCheck minAreaClaimCheck
  cases mustHave.minArea <;> cases property.areaSqft <;>
    simp [← decide_not, not_le, not_lt]

theorem maxDistanceCheck_eq_claim (mustHave : RecommendationMustHave α)
    (property : RecommendationProperty α) :
    maxDistanceCheck mustHave property = maxDistanceClaimCheck mustHave property := by
  unfold maxDistanceCheck maxDistanceClaimCheck
  cases mustHave.maxDistanceFromHighway <;> cases property.distanceFromHighway <;>
    simp [← decide_not, not_le, not_lt]

theorem propertyPasses_eq_amended (mustHave : RecommendationMustHave α)
    (property : RecommendationProperty α) :
    propertyPasses mustHave property = satisfiesAmendedMustHave mustHave property := by
  unfold propertyPasses satisfiesAmendedMustHave
  rw [locationCheck_eq_claim, minPriceCheck_eq_claim, maxPriceCheck_eq_claim,
    minRoiCheck_eq_claim, minAreaCheck_eq_claim, maxDistanceCheck_eq_claim]

end SpecSidePredicates

/-- Sample listing used in the counterexample for claim C1. -/
def c1Property : RecommendationProperty ℚ :=
  { location := "Kathmandu", categoryId := 1, status := "available" }

/-- Must-have constraints with a present-but-empty status string, used in the
counterexample for claim C1. -/
def c1MustHave : RecommendationMustHave ℚ := { status := some "" }

/-- C1 (counterexample): with `status` present but equal to `""`, the code
skips the status check (JavaScript truthiness) and keeps the listing, while
the predicate of the claim — case-insensitive exact equality for a present
status — rejects it. -/
theorem applyHardFilters_claim_cex :
    applyHardFilters [c1Property] c1MustHave ≠
      List.filter (fun l => satisfiesClaimMustHave c1MustHave l) [c1Property] := by
  decide

/-- C1 (amended): `applyHardFilters` returns exactly the order-preserving
subsequence of its input whose listings satisfy every active constraint,
where a present-but-empty status string (like an absent one) imposes no
restriction and all other constraint fields act exactly as the claim states;
the result is a sublist of the input (no reordering, no mutation). -/
theorem applyHardFilters_spec {α : Type} [LinearOrderedField α] [FloorRing α]
    (S : List (RecommendationProperty α)) (M : RecommendationMustHave α) :
    applyHardFilters S M = S.filter (fun l => satisfiesAmendedMustHave M l) ∧
      (applyHardFilters S M).Sublist S := by
  constructor
  · unfold applyHardFilters
    exact List.filter_congr (fun l _ => propertyPasses_eq_amended M l)
  · exact List.filter_sublist S

/-- C8: applying the hard filter twice equals applying it once. -/
theorem applyHardFilters_idempotent {α : Type} [LinearOrderedField α] [FloorRing α]
    (S : List (RecommendationProperty α)) (M : RecommendationMustHave α) :
    applyHardFilters (applyHardFilters S M) M = applyHardFilters S M := by
  unfold applyHardFilters
  rw [List.filter_filter]
  simp

section RoundingLemmas

variable {α : Type} [LinearOrderedField α] [FloorRing α]

/-- Values expressible in hundredths.  Every per-criterion point value of the
scoring stage has this form, which makes the final `round2` of the
accumulated score the identity. -/
def Hundredths (x : α) : Prop := ∃ n : ℤ, x = (n : α) / 100

theorem hundredths_round2 (x : α) : Hundredths (round2 x) :=
  ⟨⌊x * 100 + 1/2⌋, rfl⟩

theorem hundredths_zero : Hundredths (0 : α) := ⟨0, by norm_num⟩

theorem hundredths_weight (n : ℕ) : Hundredths ((n : α)) :=
  ⟨100 * n, by push_cast; ring⟩

theorem hundredths_add {x y : α} (hx : Hundredths x) (hy : Hundredths y) :
    Hundredths (x + y) := by
  obtain ⟨n, rfl⟩ := hx
  obtain ⟨m, rfl⟩ := hy
  exact ⟨n + m, by push_cast; ring⟩

theorem floor_half_eq_zero : ⌊(1 : α) / 2⌋ = 0 := by
  rw [Int.floor_eq_zero_iff]
  constructor <;> norm_num

theorem round2_hundredths {x : α} (h : Hundredths x) : round2 x = x := by
  obtain ⟨n, rfl⟩ := h
  unfold round2
  have h100 : ((n : α) / 100) * 100 = (n : α) :=
    div_mul_cancel₀ _ (by norm_num)
  rw [h100, add_comm, Int.floor_add_int, floor_half_eq_zero]
  norm_num

theorem round2_mono {x y : α} (h : x ≤ y) : round2 x ≤ round2 y := by
  unfold round2
  have h1 : ⌊x * 100 + 1/2⌋ ≤ ⌊y * 100 + 1/2⌋ :=
    Int.floor_le_floor (by linarith)
  have h2 : ((⌊x * 100 + 1/2⌋ : ℤ) : α) ≤ ((⌊y * 100 + 1/2⌋ : ℤ) : α) := by
    exact_mod_cast h1
  exact div_le_div_of_nonneg_right h2 (by norm_num)

theorem round2_zero : round2 (0 : α) = 0 := round2_hundredths hundredths_zero

theorem round2_nonneg {x : α} (h : 0 ≤ x) : 0 ≤ round2 x := by
  have := round2_mono h
  rwa [round2_zero] at this

theorem round2_le_of_le {x y : α} (h : x ≤ y) (hy : Hundredths y) :
    round2 x ≤ y := by
  have := round2_mono h
  rwa [round2_hundredths hy] at this

theorem safeRatioScore_nonneg (w r : α) (hw : 0 ≤ w) :
    0 ≤ safeRatioScore w r :=
  round2_nonneg (mul_nonneg hw (le_max_left 0 (1 - r)))

theorem safeRatioScore_le (w r : α) (hw : 0 ≤ w) (hr : 0 ≤ r)
    (hhw : Hundredths w) : safeRatioScore w r ≤ w := by
  unfold safeRatioScore
  have hmax : max 0 (1 - r) ≤ 1 := max_le (by norm_num) (by linarith)
  exact round2_le_of_le (mul_le_of_le_one_right hw hmax) hhw

theorem safeRatioScore_of_one_le (w r : α) (hr : 1 ≤ r) :
    safeRatioScore w r = 0 := by
  unfold safeRatioScore
  rw [max_eq_left (by linarith), mul_zero, round2_zero]

theorem hundredths_map_sum {β : Type} (f : β → α) (L : List β)
    (h : ∀ x ∈ L, Hundredths (f x)) : Hundredths ((L.map f).sum) := by
  induction L with
  | nil => simpa using hundredths_zero
  | cons a t ih =>
    simp only [List.map_cons, List.sum_cons]
    exact hundredths_add (h a (List.mem_cons_self a t))
      (ih (fun x hx => h x (List.mem_cons_of_mem a hx)))

end RoundingLemmas

section CriterionBounds

variable {α : Type} [LinearOrderedField α] [FloorRing α]

theorem radiusKm_pos (preferences : RecommendationPreferences α) :
    0 < radiusKm preferences := by
  unfold radiusKm
  cases preferences.locationRadiusKm with
  | none => norm_num
  | some rad =>
    by_cases h : 0 < rad
    · simp [h]
    · simp only [h, if_false]
      norm_num

theorem hundredths_25 : Hundredths (25 : α) := ⟨2500, by norm_num⟩

theorem hundredths_30 : Hundredths (30 : α) := ⟨3000, by norm_num⟩

theorem hundredths_15 : Hundredths (15 : α) := ⟨1500, by norm_num⟩

theorem hundredths_safeRatioScore (w r : α) : Hundredths (safeRatioScore w r) :=
  ⟨⌊(w * max 0 (1 - r)) * 100 + 1/2⌋, rfl⟩

theorem locationCriterion_bounds (hav : α → α → α → α → α)
    (hnn : ∀ a b c d, 0 ≤ hav a b c d)
    (property : RecommendationProperty α)
    (preferences : RecommendationPreferences α)
    (e : RecommendationExplanation α)
    (h : locationCriterion hav property preferences = some e) :
    0 ≤ e.points ∧ e.points ≤ 25 ∧ Hundredths e.points := by
  unfold locationCriterion at h
  split at h
  · -- preference coordinates present
    split at h
    · -- property coordinates present: haversine scoring
      injection h with h'
      subst h'
      exact ⟨safeRatioScore_nonneg _ _ (by norm_num),
        safeRatioScore_le _ _ (by norm_num)
          (div_nonneg (hnn _ _ _ _) (radiusKm_pos preferences).le) hundredths_25,
        hundredths_safeRatioScore _ _⟩
    · -- property coordinates missing: text fallback
      split at h
      · split_ifs at h <;>
          first
            | exact Option.noConfusion h
            | (injection h with h'
               subst h'
               refine ⟨by norm_num, by norm_num, ?_⟩
               first
                 | exact hundredths_25
                 | exact hundredths_zero)
      · injection h with h'
        subst h'
        exact ⟨le_refl 0, by norm_num, hundredths_zero⟩
  · -- text-only mode
    split at h
    · split_ifs at h <;>
        first
          | exact Option.noConfusion h
          | (injection h with h'
             subst h'
             refine ⟨by norm_num, by norm_num, ?_⟩
             first
               | exact hundredths_25
               | exact hundredths_zero)
    · exact Option.noConfusion h

end CriterionBounds

section MoreCriterionBounds

variable {α : Type} [LinearOrderedField α] [FloorRing α]

theorem priceCriterion_bounds (property : RecommendationProperty α)
    (preferences : RecommendationPreferences α)
    (e : RecommendationExplanation α)
    (h : priceCriterion property preferences = some e) :
    0 ≤ e.points ∧ e.points ≤ 30 ∧ Hundredths e.points := by
  unfold priceCriterion at h
  split at h
  next budget =>
    split_ifs at h with hb
    injection h with h'
    subst h'
    cases hp : property.priceNpr with
    | none =>
      simp only [hp]
      exact ⟨le_refl 0, by norm_num, hundredths_zero⟩
    | some price =>
      simp only [hp]
      exact ⟨safeRatioScore_nonneg _ _ (by norm_num),
        safeRatioScore_le _ _ (by norm_num)
          (div_nonneg (abs_nonneg _) hb.le) hundredths_30,
        hundredths_safeRatioScore _ _⟩
  next => exact Option.noConfusion h

theorem roiCriterion_bounds (property : RecommendationProperty α)
    (preferences : RecommendationPreferences α)
    (e : RecommendationExplanation α)
    (h : roiCriterion property preferences = some e) :
    0 ≤ e.points ∧ e.points ≤ 15 ∧ Hundredths e.points := by
  unfold roiCriterion at h
  split at h
  next pref hpref =>
    split_ifs at h with hb
    injection h with h'
    subst h'
    cases hp : property.roiPercent with
    | none =>
      simp only [hp]
      exact ⟨le_refl 0, by norm_num, hundredths_zero⟩
    | some roi =>
      simp only [hp]
      by_cases hge : pref ≤ roi
      · simp only [hge, if_true]
        exact ⟨by norm_num, le_refl 15, hundredths_15⟩
      · simp only [hge, if_false]
        refine ⟨round2_nonneg (mul_nonneg (by norm_num) (le_max_left _ _)), ?_,
          ⟨_, rfl⟩⟩
        have hlt : roi / pref < 1 := (div_lt_one hb).mpr (lt_of_not_le hge)
        have hmax : max 0 (roi / pref) ≤ 1 := max_le (by norm_num) hlt.le
        exact round2_le_of_le (mul_le_of_le_one_right (by norm_num) hmax)
          hundredths_15
  next => exact Option.noConfusion h

theorem areaCriterion_bounds (property : RecommendationProperty α)
    (preferences : RecommendationPreferences α)
    (e : RecommendationExplanation α)
    (h : areaCriterion property preferences = some e) :
    0 ≤ e.points ∧ e.points ≤ 15 ∧ Hundredths e.points := by
  unfold areaCriterion at h
  split at h
  next pref =>
    split_ifs at h with hb
    injection h with h'
    subst h'
    cases hp : property.areaSqft with
    | none =>
      simp only [hp]
      exact ⟨le_refl 0, by norm_num, hundredths_zero⟩
    | some area =>
      simp only [hp]
      exact ⟨safeRatioScore_nonneg _ _ (by norm_num),
        safeRatioScore_le _ _ (by norm_num)
          (div_nonneg (abs_nonneg _) hb.le) hundredths_15,
        hundredths_safeRatioScore _ _⟩
  next => exact Option.noConfusion h

theorem distanceCriterion_bounds (property : RecommendationProperty α)
    (preferences : RecommendationPreferences α)
    (e : RecommendationExplanation α)
    (h : distanceCriterion property preferences = some e) :
    0 ≤ e.points ∧ e.points ≤ 15 ∧ Hundredths e.points := by
  unfold distanceCriterion at h
  split at h
  next bound hbound =>
    split_ifs at h with hb
    injection h with h'
    subst h'
    cases hp : property.distanceFromHighway with
    | none =>
      simp only [hp]
      exact ⟨le_refl 0, by norm_num, hundredths_zero⟩
    | some dist =>
      simp only [hp]
      by_cases hle : dist ≤ bound
      · simp only [hle, if_true]
        exact ⟨by norm_num, le_refl 15, hundredths_15⟩
      · simp only [hle, if_false]
        have hrat : 0 ≤ (dist - bound) / bound :=
          div_nonneg (by linarith [lt_of_not_le hle]) hb.le
        exact ⟨safeRatioScore_nonneg _ _ (by norm_num),
          safeRatioScore_le _ _ (by norm_num) hrat hundredths_15,
          hundredths_safeRatioScore _ _⟩
  next => exact Option.noConfusion h

end MoreCriterionBounds

section ScoreBounds

variable {α : Type} [LinearOrderedField α] [FloorRing α]

theorem critList_mem {w : α} {o : Option (RecommendationExplanation α)}
    {we : α × RecommendationExplanation α} (h : we ∈ critList w o) :
    o = some we.2 ∧ we.1 = w := by
  cases o with
  | none => simp [critList] at h
  | some e =>
    simp only [critList, List.mem_singleton] at h
    subst h
    exact ⟨rfl, rfl⟩

theorem scoreCriteria_bounds (hav : α → α → α → α → α)
    (hnn : ∀ a b c d, 0 ≤ hav a b c d)
    (property : RecommendationProperty α)
    (preferences : RecommendationPreferences α) :
    ∀ we ∈ scoreCriteria hav property preferences,
      (0 ≤ we.2.points ∧ we.2.points ≤ we.1) ∧
        Hundredths we.2.points ∧ (0 ≤ we.1 ∧ Hundredths we.1) := by
  intro we hwe
  unfold scoreCriteria at hwe
  rcases List.mem_append.mp hwe with hr1 | h5
  · rcases List.mem_append.mp hr1 with hr2 | h4
    · rcases List.mem_append.mp hr2 with hr3 | h3
      · rcases List.mem_append.mp hr3 with h1 | h2
        · obtain ⟨ho, hw⟩ := critList_mem h1
          obtain ⟨b1, b2, b3⟩ := locationCriterion_bounds hav hnn _ _ _ ho
          exact ⟨⟨b1, hw ▸ b2⟩, b3, hw ▸ ⟨by norm_num, hundredths_25⟩⟩
        · obtain ⟨ho, hw⟩ := critList_mem h2
          obtain ⟨b1, b2, b3⟩ := priceCriterion_bounds _ _ _ ho
          exact ⟨⟨b1, hw ▸ b2⟩, b3, hw ▸ ⟨by norm_num, hundredths_30⟩⟩
      · obtain ⟨ho, hw⟩ := critList_mem h3
        obtain ⟨b1, b2, b3⟩ := roiCriterion_bounds _ _ _ ho
        exact ⟨⟨b1, hw ▸ b2⟩, b3, hw ▸ ⟨by norm_num, hundredths_15⟩⟩
    · obtain ⟨ho, hw⟩ := critList_mem h4
      obtain ⟨b1, b2, b3⟩ := areaCriterion_bounds _ _ _ ho
      exact ⟨⟨b1, hw ▸ b2⟩, b3, hw ▸ ⟨by norm_num, hundredths_15⟩⟩
  · obtain ⟨ho, hw⟩ := critList_mem h5
    obtain ⟨b1, b2, b3⟩ := distanceCriterion_bounds _ _ _ ho
    exact ⟨⟨b1, hw ▸ b2⟩, b3, hw ▸ ⟨by norm_num, hundredths_15⟩⟩

theorem scoreProperty_bounds_of_nonneg (hav : α → α → α → α → α)
    (hnn : ∀ a b c d, 0 ≤ hav a b c d)
    (property : RecommendationProperty α)
    (preferences : RecommendationPreferences α) :
    0 ≤ (scoreProperty hav property preferences).score ∧
      (scoreProperty hav property preferences).score ≤
        (scoreProperty hav property preferences).maxPossible ∧
      0 ≤ (scoreProperty hav property preferences).matchPercentage ∧
      (scoreProperty hav property preferences).matchPercentage ≤ 100 := by
  have hb := scoreCriteria_bounds hav hnn property preferences
  have htot0 : 0 ≤ ((scoreCriteria hav property preferences).map
      (fun e => e.2.points)).sum := by
    apply List.sum_nonneg
    intro x hx
    obtain ⟨we, hwe, rfl⟩ := List.mem_map.mp hx
    exact (hb we hwe).1.1
  have htotle : ((scoreCriteria hav property preferences).map
      (fun e => e.2.points)).sum ≤
      ((scoreCriteria hav property preferences).map (fun e => e.1)).sum :=
    List.sum_le_sum (fun we hwe => (hb we hwe).1.2)
  have hmax0 : 0 ≤ ((scoreCriteria hav property preferences).map
      (fun e => e.1)).sum := by
    apply List.sum_nonneg
    intro x hx
    obtain ⟨we, hwe, rfl⟩ := List.mem_map.mp hx
    exact (hb we hwe).2.2.1
  have hrep : Hundredths ((scoreCriteria hav property preferences).map
      (fun e => e.2.points)).sum :=
    hundredths_map_sum _ _ (fun we hwe => (hb we hwe).2.1)
  refine ⟨round2_nonneg htot0, ?_, ?_, ?_⟩
  · show round2 ((scoreCriteria hav property preferences).map
      (fun e => e.2.points)).sum ≤
      ((scoreCriteria hav property preferences).map (fun e => e.1)).sum
    rw [round2_hundredths hrep]
    exact htotle
  · show 0 ≤ (if ((scoreCriteria hav property preferences).map
        (fun e => e.1)).sum = 0 then 0
      else ((jsRound (((scoreCriteria hav property preferences).map
        (fun e => e.2.points)).sum /
        ((scoreCriteria hav property preferences).map (fun e => e.1)).sum * 100) : ℤ) : α))
    split_ifs with hm
    · exact le_refl 0
    · have hmpos : 0 < ((scoreCriteria hav property preferences).map
          (fun e => e.1)).sum := lt_of_le_of_ne hmax0 (Ne.symm hm)
      have harg : 0 ≤ ((scoreCriteria hav property preferences).map
          (fun e => e.2.points)).sum /
          ((scoreCriteria hav property preferences).map (fun e => e.1)).sum * 100 + 1/2 := by
        have := div_nonneg htot0 hmpos.le
        positivity
      exact_mod_cast Int.floor_nonneg.mpr harg
  · show (if ((scoreCriteria hav property preferences).map
        (fun e => e.1)).sum = 0 then 0
      else ((jsRound (((scoreCriteria hav property preferences).map
        (fun e => e.2.points)).sum /
        ((scoreCriteria hav property preferences).map (fun e => e.1)).sum * 100) : ℤ) : α)) ≤ 100
    split_ifs with hm
    · norm_num
    · have hmpos : 0 < ((scoreCriteria hav property preferences).map
          (fun e => e.1)).sum := lt_of_le_of_ne hmax0 (Ne.symm hm)
      have hdiv : ((scoreCriteria hav property preferences).map
          (fun e => e.2.points)).sum /
          ((scoreCriteria hav property preferences).map (fun e => e.1)).sum ≤ 1 :=
        (div_le_one hmpos).mpr htotle
      have hmul : ((scoreCriteria hav property preferences).map
          (fun e => e.2.points)).sum /
          ((scoreCriteria hav property preferences).map (fun e => e.1)).sum * 100 ≤ 100 := by
        nlinarith
      have hfl : jsRound (((scoreCriteria hav property preferences).map
          (fun e => e.2.points)).sum /
          ((scoreCriteria hav property preferences).map (fun e => e.1)).sum * 100) ≤ 100 := by
        unfold jsRound
        have : (((scoreCriteria hav property preferences).map
            (fun e => e.2.points)).sum /
            ((scoreCriteria hav property preferences).map (fun e => e.1)).sum * 100 + 1/2 : α) <
            ((101 : ℤ) : α) := by
          push_cast
          linarith
        have h101 := Int.floor_lt.mpr this
        omega
      exact_mod_cast hfl

end ScoreBounds

theorem jsAtan2_nonneg (y x : ℝ) (hy : 0 ≤ y) (hx : 0 ≤ x) : 0 ≤ jsAtan2 y x := by
  unfold jsAtan2
  split_ifs with h1 h2 h3 h4
  case pos =>
    have := Real.arctan_strictMono.monotone (div_nonneg hy h1.le)
    rwa [Real.arctan_zero] at this
  all_goals linarith [Real.pi_pos]

theorem haversineKm_nonneg (lat1 lng1 lat2 lng2 : ℝ) :
    0 ≤ haversineKm lat1 lng1 lat2 lng2 := by
  unfold haversineKm
  have h := jsAtan2_nonneg (Real.sqrt (Real.sin (toRad (lat2 - lat1) / 2) *
      Real.sin (toRad (lat2 - lat1) / 2) +
      Real.cos (toRad lat1) * Real.cos (toRad lat2) *
        Real.sin (toRad (lng2 - lng1) / 2) * Real.sin (toRad (lng2 - lng1) / 2)))
    (Real.sqrt (1 - (Real.sin (toRad (lat2 - lat1) / 2) *
      Real.sin (toRad (lat2 - lat1) / 2) +
      Real.cos (toRad lat1) * Real.cos (toRad lat2) *
        Real.sin (toRad (lng2 - lng1) / 2) * Real.sin (toRad (lng2 - lng1) / 2))))
    (Real.sqrt_nonneg _) (Real.sqrt_nonneg _)
  nlinarith [h]

/-- C3: for every listing and every preferences value, the result of
`scoreProperty` (with the haversine distance of the source) satisfies
`0 ≤ score ≤ maxPossible` and `0 ≤ matchPercentage ≤ 100`. -/
theorem scoreProperty_bounded (property : RecommendationProperty ℝ)
    (preferences : RecommendationPreferences ℝ) :
    0 ≤ (scoreProperty haversineKm property preferences).score ∧
      (scoreProperty haversineKm property preferences).score ≤
        (scoreProperty haversineKm property preferences).maxPossible ∧
      0 ≤ (scoreProperty haversineKm property preferences).matchPercentage ∧
      (scoreProperty haversineKm property preferences).matchPercentage ≤ 100 :=
  scoreProperty_bounds_of_nonneg haversineKm
    (fun a b c d => haversineKm_nonneg a b c d) property preferences

/-- C2: when both preference coordinates and both listing coordinates are
present, the location criterion of `scoreProperty` contributes weight 25 to
`maxPossible` and awards `round2 (25 * max 0 (1 - d / r))` points, where `d`
is the haversine distance (Earth radius 6371 km) between the preference and
listing coordinates and `r` is `locationRadiusKm` when present and positive,
else 10; the points are never negative and are 0 whenever `d ≥ r`. -/
theorem scoreProperty_location_coordinate_mode
    (property : RecommendationProperty ℝ)
    (preferences : RecommendationPreferences ℝ)
    (plat plng lat lng : ℝ)
    (hplat : preferences.latitude = some plat)
    (hplng : preferences.longitude = some plng)
    (hlat : property.latitude = some lat)
    (hlng : property.longitude = some lng) :
    ∃ rest : List (ℝ × RecommendationExplanation ℝ),
      scoreCriteria haversineKm property preferences =
        ((25 : ℝ), ⟨"Location scored by distance from preferred point",
          round2 (25 * max 0 (1 - haversineKm plat plng lat lng /
            radiusKm preferences))⟩) :: rest ∧
      (scoreProperty haversineKm property preferences).maxPossible =
        25 + (rest.map (fun we => we.1)).sum ∧
      0 ≤ round2 (25 * max 0 (1 - haversineKm plat plng lat lng /
        radiusKm preferences)) ∧
      (radiusKm preferences ≤ haversineKm plat plng lat lng →
        round2 (25 * max 0 (1 - haversineKm plat plng lat lng /
          radiusKm preferences)) = 0) ∧
      (preferences.locationRadiusKm = none → radiusKm preferences = 10) ∧
      (∀ rad, preferences.locationRadiusKm = some rad →
        radiusKm preferences = if 0 < rad then rad else 10) := by
  have hloc : locationCriterion haversineKm property preferences =
      some ⟨"Location scored by distance from preferred point",
        safeRatioScore 25 (haversineKm plat plng lat lng / radiusKm preferences)⟩ := by
    unfold locationCriterion
    rw [hplat, hplng, hlat, hlng]
  refine ⟨((critList 30 (priceCriterion property preferences) ++
      critList 15 (roiCriterion property preferences)) ++
      critList 15 (areaCriterion property preferences)) ++
      critList 15 (distanceCriterion property preferences), ?_, ?_, ?_, ?_, ?_, ?_⟩
  · unfold scoreCriteria
    rw [hloc]
    simp [critList, safeRatioScore]
  · show ((scoreCriteria haversineKm property preferences).map (fun e => e.1)).sum = _
    unfold scoreCriteria
    rw [hloc]
    simp [critList]
  · exact round2_nonneg (mul_nonneg (by norm_num) (le_max_left _ _))
  · intro hge
    have hr := radiusKm_pos preferences
    have h1 : (1 : ℝ) ≤ haversineKm plat plng lat lng / radiusKm preferences :=
      (one_le_div hr).mpr hge
    rw [max_eq_left (by linarith), mul_zero, round2_zero]
  · intro hnone
    unfold radiusKm
    rw [hnone]
  · intro rad hsome
    unfold radiusKm
    rw [hsome]

/-- Concrete preferences used by the C2 witness. -/
def c2Preferences : RecommendationPreferences ℝ :=
  { latitude := some 27.7, longitude := some 85.3 }

/-- Concrete listing used by the C2 witness. -/
def c2Property : RecommendationProperty ℝ :=
  { location := "Kathmandu", categoryId := 1, status := "available",
    latitude := some 27.8, longitude := some 85.4 }

theorem scoreProperty_location_coordinate_mode_witness :
    0 ≤ round2 (25 * max 0 (1 - haversineKm 27.7 85.3 27.8 85.4 /
        radiusKm c2Preferences)) ∧
      radiusKm c2Preferences = 10 := by
  obtain ⟨rest, hEq, hmax, hnn, hzero, hdef, hsome⟩ :=
    scoreProperty_location_coordinate_mode c2Property c2Preferences
      27.7 85.3 27.8 85.4 rfl rfl rfl rfl
  exact ⟨hnn, hdef rfl⟩

/-- C9: the returned score is exactly `round2` of the sum of the points of
the explanation entries — the explanation fully accounts for the score. -/
theorem scoreProperty_explanation_accounts {α : Type} [LinearOrderedField α]
    [FloorRing α] (hav : α → α → α → α → α)
    (property : RecommendationProperty α)
    (preferences : RecommendationPreferences α) :
    (scoreProperty hav property preferences).score =
      round2 (((scoreProperty hav property preferences).explanation.map
        (fun e => e.points)).sum) := by
  show round2 ((scoreCriteria hav property preferences).map
      (fun e => e.2.points)).sum =
    round2 ((((scoreCriteria hav property preferences).map
      (fun e => e.2)).map (fun e => e.points)).sum)
  rw [List.map_map]
  rfl

section NoActiveCriteria

variable {α : Type} [LinearOrderedField α] [FloorRing α]

/-- C6: when no criterion is active — no coordinate pair, no location text,
and each of budget, roiPercent, areaSqft, maxDistanceFromHighway absent or
non-positive — `scoreProperty` returns all-zero results and an empty
explanation. -/
theorem scoreProperty_no_active_criteria (hav : α → α → α → α → α)
    (property : RecommendationProperty α)
    (preferences : RecommendationPreferences α)
    (hcoord : preferences.latitude = none ∨ preferences.longitude = none)
    (hloc : preferences.location = none)
    (hb : ∀ x, preferences.budget = some x → x ≤ 0)
    (hr : ∀ x, preferences.roiPercent = some x → x ≤ 0)
    (ha : ∀ x, preferences.areaSqft = some x → x ≤ 0)
    (hd : ∀ x, preferences.maxDistanceFromHighway = some x → x ≤ 0) :
    scoreProperty hav property preferences =
      { score := 0, maxPossible := 0, matchPercentage := 0, explanation := [] } := by
  have hlocC : locationCriterion hav property preferences = none := by
    unfold locationCriterion
    cases hA : preferences.latitude with
    | some plat =>
      cases hB : preferences.longitude with
      | some plng =>
        exfalso
        rcases hcoord with h | h
        · rw [hA] at h
          exact Option.noConfusion h
        · rw [hB] at h
          exact Option.noConfusion h
      | none => simp [hloc]
    | none => simp [hloc]
  have hpC : priceCriterion property preferences = none := by
    unfold priceCriterion
    cases hq : preferences.budget with
    | some b =>
      have := hb b hq
      dsimp only
      rw [if_neg (not_lt.mpr this)]
    | none => rfl
  have hrC : roiCriterion property preferences = none := by
    unfold roiCriterion
    cases hq : preferences.roiPercent with
    | some b =>
      have := hr b hq
      dsimp only
      rw [if_neg (not_lt.mpr this)]
    | none => rfl
  have haC : areaCriterion property preferences = none := by
    unfold areaCriterion
    cases hq : preferences.areaSqft with
    | some b =>
      have := ha b hq
      dsimp only
      rw [if_neg (not_lt.mpr this)]
    | none => rfl
  have hdC : distanceCriterion property preferences = none := by
    unfold distanceCriterion
    cases hq : preferences.maxDistanceFromHighway with
    | some b =>
      have := hd b hq
      dsimp only
      rw [if_neg (not_lt.mpr this)]
    | none => rfl
  unfold scoreProperty scoreCriteria
  rw [hlocC, hpC, hrC, haC, hdC]
  simp [critList, round2_zero]

end NoActiveCriteria

/-- Preferences with no active criterion, used by the C6 witness. -/
def c6Preferences : RecommendationPreferences ℚ := {}

/-- Sample listing used by the C6 witness. -/
def c6Property : RecommendationProperty ℚ :=
  { location := "Pokhara", categoryId := 2, status := "sold" }

theorem scoreProperty_no_active_criteria_witness :
    scoreProperty (fun _ _ _ _ => (0 : ℚ)) c6Property c6Preferences =
      { score := 0, maxPossible := 0, matchPercentage := 0, explanation := [] } :=
  scoreProperty_no_active_criteria _ _ _ (Or.inl rfl) rfl
    (fun _ h => Option.noConfusion h) (fun _ h => Option.noConfusion h)
    (fun _ h => Option.noConfusion h) (fun _ h => Option.noConfusion h)

/-- C7: with the budget present and positive, the price criterion of
`scoreProperty` is monotonically non-increasing in the distance of the price
from the budget: a listing whose price is at least as close to the budget
never receives fewer price points. -/
theorem priceCriterion_monotone {α : Type} [LinearOrderedField α] [FloorRing α]
    (hav : α → α → α → α → α)
    (l1 l2 : RecommendationProperty α)
    (preferences : RecommendationPreferences α) (b p1 p2 : α)
    (hb : preferences.budget = some b) (hb0 : 0 < b)
    (h1 : l1.priceNpr = some p1) (h2 : l2.priceNpr = some p2)
    (hcl : |p1 - b| ≤ |p2 - b|) :
    ∃ e1 e2 : RecommendationExplanation α,
      priceCriterion l1 preferences = some e1 ∧
      priceCriterion l2 preferences = some e2 ∧
      ((30 : α), e1) ∈ scoreCriteria hav l1 preferences ∧
      ((30 : α), e2) ∈ scoreCriteria hav l2 preferences ∧
      e2.points ≤ e1.points := by
  have he1 : priceCriterion l1 preferences =
      some ⟨"Budget closeness scored against NPR",
        safeRatioScore 30 (|p1 - b| / b)⟩ := by
    unfold priceCriterion
    rw [hb]
    dsimp only
    rw [if_pos hb0, h1]
  have he2 : priceCriterion l2 preferences =
      some ⟨"Budget closeness scored against NPR",
        safeRatioScore 30 (|p2 - b| / b)⟩ := by
    unfold priceCriterion
    rw [hb]
    dsimp only
    rw [if_pos hb0, h2]
  refine ⟨_, _, he1, he2, ?_, ?_, ?_⟩
  · unfold scoreCriteria
    rw [he1]
    simp [critList]
  · unfold scoreCriteria
    rw [he2]
    simp [critList]
  · show safeRatioScore 30 (|p2 - b| / b) ≤ safeRatioScore 30 (|p1 - b| / b)
    unfold safeRatioScore
    apply round2_mono
    have hdiv : |p1 - b| / b ≤ |p2 - b| / b :=
      div_le_div_of_nonneg_right hcl hb0.le
    have hmax : max 0 (1 - |p2 - b| / b) ≤ max 0 (1 - |p1 - b| / b) :=
      max_le_max (le_refl 0) (by linarith)
    exact mul_le_mul_of_nonneg_left hmax (by norm_num)

/-- Listing with price 110, used by the C7 witness. -/
def c7Closer : RecommendationProperty ℚ :=
  { location := "Lalitpur", categoryId := 3, status := "available",
    priceNpr := some 110 }

/-- Listing with price 150, used by the C7 witness. -/
def c7Farther : RecommendationProperty ℚ :=
  { location := "Lalitpur", categoryId := 3, status := "available",
    priceNpr := some 150 }

/-- Preferences with budget 100, used by the C7 witness. -/
def c7Preferences : RecommendationPreferences ℚ := { budget := some 100 }

theorem priceCriterion_monotone_witness :
    ∃ e1 e2 : RecommendationExplanation ℚ,
      priceCriterion c7Closer c7Preferences = some e1 ∧
      priceCriterion c7Farther c7Preferences = some e2 ∧
      ((30 : ℚ), e1) ∈ scoreCriteria (fun _ _ _ _ => 0) c7Closer c7Preferences ∧
      ((30 : ℚ), e2) ∈ scoreCriteria (fun _ _ _ _ => 0) c7Farther c7Preferences ∧
      e2.points ≤ e1.points := by
  refine priceCriterion_monotone (fun _ _ _ _ => 0) c7Closer c7Farther
    c7Preferences 100 110 150 rfl (by norm_num) rfl rfl ?_
  have ha : |(110 : ℚ) - 100| = 10 := by
    rw [abs_of_nonneg] <;> norm_num
  have hb : |(150 : ℚ) - 100| = 50 := by
    rw [abs_of_nonneg] <;> norm_num
  rw [ha, hb]
  norm_num

section CriterionCongr

variable {α : Type} [LinearOrderedField α] [FloorRing α]

theorem locationCriterion_congr (hav : α → α → α → α → α)
    (property : RecommendationProperty α)
    {p q : RecommendationPreferences α}
    (hloc : p.location = q.location) (hlat : p.latitude = q.latitude)
    (hlng : p.longitude = q.longitude)
    (hrad : p.locationRadiusKm = q.locationRadiusKm) :
    locationCriterion hav property p = locationCriterion hav property q := by
  unfold locationCriterion radiusKm
  rw [hloc, hlat, hlng, hrad]

theorem priceCriterion_congr (property : RecommendationProperty α)
    {p q : RecommendationPreferences α} (hb : p.budget = q.budget) :
    priceCriterion property p = priceCriterion property q := by
  unfold priceCriterion
  rw [hb]

theorem roiCriterion_congr (property : RecommendationProperty α)
    {p q : RecommendationPreferences α} (hr : p.roiPercent = q.roiPercent) :
    roiCriterion property p = roiCriterion property q := by
  unfold roiCriterion
  rw [hr]

theorem areaCriterion_congr (property : RecommendationProperty α)
    {p q : RecommendationPreferences α} (ha : p.areaSqft = q.areaSqft) :
    areaCriterion property p = areaCriterion property q := by
  unfold areaCriterion
  rw [ha]

theorem distanceCriterion_congr (property : RecommendationProperty α)
    {p q : RecommendationPreferences α}
    (hd : p.maxDistanceFromHighway = q.maxDistanceFromHighway) :
    distanceCriterion property p = distanceCriterion property q := by
  unfold distanceCriterion
  rw [hd]

end CriterionCongr

section MissingFieldLemmas

variable {α : Type} [LinearOrderedField α] [FloorRing α]

theorem priceCriterion_missing_field (hav : α → α → α → α → α)
    (property : RecommendationProperty α)
    (preferences : RecommendationPreferences α) (b : α)
    (hbv : preferences.budget = some b) (hb0 : 0 < b)
    (hp : property.priceNpr = none) :
    priceCriterion property preferences =
      some ⟨"Price missing, could not score budget closeness", 0⟩ ∧
    (scoreProperty hav property preferences).maxPossible =
      30 + (scoreProperty hav property
        { preferences with budget := none }).maxPossible ∧
    (scoreProperty hav property preferences).explanation.length =
      1 + (scoreProperty hav property
        { preferences with budget := none }).explanation.length := by
  have hpc : priceCriterion property preferences =
      some ⟨"Price missing, could not score budget closeness", 0⟩ := by
    unfold priceCriterion
    rw [hbv]
    dsimp only
    rw [if_pos hb0, hp]
  have hpc' : priceCriterion property { preferences with budget := none } =
      none := rfl
  have hl : locationCriterion hav property { preferences with budget := none } =
      locationCriterion hav property preferences :=
    locationCriterion_congr hav property rfl rfl rfl rfl
  have hr : roiCriterion property { preferences with budget := none } =
      roiCriterion property preferences := roiCriterion_congr property rfl
  have ha : areaCriterion property { preferences with budget := none } =
      areaCriterion property preferences := areaCriterion_congr property rfl
  have hd : distanceCriterion property { preferences with budget := none } =
      distanceCriterion property preferences := distanceCriterion_congr property rfl
  refine ⟨hpc, ?_, ?_⟩
  · show ((scoreCriteria hav property preferences).map (fun e => e.1)).sum =
      30 + ((scoreCriteria hav property
        { preferences with budget := none }).map (fun e => e.1)).sum
    unfold scoreCriteria
    rw [hpc, hpc', hl, hr, ha, hd]
    simp only [List.map_append, List.sum_append, critList, List.map_cons,
      List.map_nil, List.sum_cons, List.sum_nil]
    ring
  · show ((scoreCriteria hav property preferences).map (fun e => e.2)).length =
      1 + ((scoreCriteria hav property
        { preferences with budget := none }).map (fun e => e.2)).length
    unfold scoreCriteria
    rw [hpc, hpc', hl, hr, ha, hd]
    simp only [List.map_append, List.length_append, critList, List.map_cons,
      List.map_nil, List.length_cons, List.length_nil]
    omega

theorem roiCriterion_missing_field (hav : α → α → α → α → α)
    (property : RecommendationProperty α)
    (preferences : RecommendationPreferences α) (r : α)
    (hrv : preferences.roiPercent = some r) (hr0 : 0 < r)
    (hp : property.roiPercent = none) :
    roiCriterion property preferences =
      some ⟨"ROI missing, could not score ROI preference", 0⟩ ∧
    (scoreProperty hav property preferences).maxPossible =
      15 + (scoreProperty hav property
        { preferences with roiPercent := none }).maxPossible ∧
    (scoreProperty hav property preferences).explanation.length =
      1 + (scoreProperty hav property
        { preferences with roiPercent := none }).explanation.length := by
  have hpc : roiCriterion property preferences =
      some ⟨"ROI missing, could not score ROI preference", 0⟩ := by
    unfold roiCriterion
    rw [hrv]
    dsimp only
    rw [if_pos hr0, hp]
  have hpc' : roiCriterion property { preferences with roiPercent := none } =
      none := rfl
  have hl : locationCriterion hav property { preferences with roiPercent := none } =
      locationCriterion hav property preferences :=
    locationCriterion_congr hav property rfl rfl rfl rfl
  have hb : priceCriterion property { preferences with roiPercent := none } =
      priceCriterion property preferences := priceCriterion_congr property rfl
  have ha : areaCriterion property { preferences with roiPercent := none } =
      areaCriterion property preferences := areaCriterion_congr property rfl
  have hd : distanceCriterion property { preferences with roiPercent := none } =
      distanceCriterion property preferences := distanceCriterion_congr property rfl
  refine ⟨hpc, ?_, ?_⟩
  · show ((scoreCriteria hav property preferences).map (fun e => e.1)).sum =
      15 + ((scoreCriteria hav property
        { preferences with roiPercent := none }).map (fun e => e.1)).sum
    unfold scoreCriteria
    rw [hpc, hpc', hl, hb, ha, hd]
    simp only [List.map_append, List.sum_append, critList, List.map_cons,
      List.map_nil, List.sum_cons, List.sum_nil]
    ring
  · show ((scoreCriteria hav property preferences).map (fun e => e.2)).length =
      1 + ((scoreCriteria hav property
        { preferences with roiPercent := none }).map (fun e => e.2)).length
    unfold scoreCriteria
    rw [hpc, hpc', hl, hb, ha, hd]
    simp only [List.map_append, List.length_append, critList, List.map_cons,
      List.map_nil, List.length_cons, List.length_nil]
    omega

theorem areaCriterion_missing_field (hav : α → α → α → α → α)
    (property : RecommendationProperty α)
    (preferences : RecommendationPreferences α) (a : α)
    (hav2 : preferences.areaSqft = some a) (ha0 : 0 < a)
    (hp : property.areaSqft = none) :
    areaCriterion property preferences =
      some ⟨"Area missing, could not score area preference", 0⟩ ∧
    (scoreProperty hav property preferences).maxPossible =
      15 + (scoreProperty hav property
        { preferences with areaSqft := none }).maxPossible ∧
    (scoreProperty hav property preferences).explanation.length =
      1 + (scoreProperty hav property
        { preferences with areaSqft := none }).explanation.length := by
  have hpc : areaCriterion property preferences =
      some ⟨"Area missing, could not score area preference", 0⟩ := by
    unfold areaCriterion
    rw [hav2]
    dsimp only
    rw [if_pos ha0, hp]
  have hpc' : areaCriterion property { preferences with areaSqft := none } =
      none := rfl
  have hl : locationCriterion hav property { preferences with areaSqft := none } =
      locationCriterion hav property preferences :=
    locationCriterion_congr hav property rfl rfl rfl rfl
  have hb : priceCriterion property { preferences with areaSqft := none } =
      priceCriterion property preferences := priceCriterion_congr property rfl
  have hr : roiCriterion property { preferences with areaSqft := none } =
      roiCriterion property preferences := roiCriterion_congr property rfl
  have hd : distanceCriterion property { preferences with areaSqft := none } =
      distanceCriterion property preferences := distanceCriterion_congr property rfl
  refine ⟨hpc, ?_, ?_⟩
  · show ((scoreCriteria hav property preferences).map (fun e => e.1)).sum =
      15 + ((scoreCriteria hav property
        { preferences with areaSqft := none }).map (fun e => e.1)).sum
    unfold scoreCriteria
    rw [hpc, hpc', hl, hb, hr, hd]
    simp only [List.map_append, List.sum_append, critList, List.map_cons,
      List.map_nil, List.sum_cons, List.sum_nil]
    ring
  · show ((scoreCriteria hav property preferences).map (fun e => e.2)).length =
      1 + ((scoreCriteria hav property
        { preferences with areaSqft := none }).map (fun e => e.2)).length
    unfold scoreCriteria
    rw [hpc, hpc', hl, hb, hr, hd]
    simp only [List.map_append, List.length_append, critList, List.map_cons,
      List.map_nil, List.length_cons, List.length_nil]
    omega

theorem distanceCriterion_missing_field (hav : α → α → α → α → α)
    (property : RecommendationProperty α)
    (preferences : RecommendationPreferences α) (d : α)
    (hdv : preferences.maxDistanceFromHighway = some d) (hd0 : 0 < d)
    (hp : property.distanceFromHighway = none) :
    distanceCriterion property preferences =
      some ⟨"Distance from highway missing, could not score distance preference", 0⟩ ∧
    (scoreProperty hav property preferences).maxPossible =
      15 + (scoreProperty hav property
        { preferences with maxDistanceFromHighway := none }).maxPossible ∧
    (scoreProperty hav property preferences).explanation.length =
      1 + (scoreProperty hav property
        { preferences with maxDistanceFromHighway := none }).explanation.length := by
  have hpc : distanceCriterion property preferences =
      some ⟨"Distance from highway missing, could not score distance preference", 0⟩ := by
    unfold distanceCriterion
    rw [hdv]
    dsimp only
    rw [if_pos hd0, hp]
  have hpc' : distanceCriterion property
      { preferences with maxDistanceFromHighway := none } = none := rfl
  have hl : locationCriterion hav property
      { preferences with maxDistanceFromHighway := none } =
      locationCriterion hav property preferences :=
    locationCriterion_congr hav property rfl rfl rfl rfl
  have hb : priceCriterion property
      { preferences with maxDistanceFromHighway := none } =
      priceCriterion property preferences := priceCriterion_congr property rfl
  have hr : roiCriterion property
      { preferences with maxDistanceFromHighway := none } =
      roiCriterion property preferences := roiCriterion_congr property rfl
  have ha : areaCriterion property
      { preferences with maxDistanceFromHighway := none } =
      areaCriterion property preferences := areaCriterion_congr property rfl
  refine ⟨hpc, ?_, ?_⟩
  · show ((scoreCriteria hav property preferences).map (fun e => e.1)).sum =
      15 + ((scoreCriteria hav property
        { preferences with maxDistanceFromHighway := none }).map (fun e => e.1)).sum
    unfold scoreCriteria
    rw [hpc, hpc', hl, hb, hr, ha]
    simp only [List.map_append, List.sum_append, critList, List.map_cons,
      List.map_nil, List.sum_cons, List.sum_nil]
    ring
  · show ((scoreCriteria hav property preferences).map (fun e => e.2)).length =
      1 + ((scoreCriteria hav property
        { preferences with maxDistanceFromHighway := none }).map (fun e => e.2)).length
    unfold scoreCriteria
    rw [hpc, hpc', hl, hb, hr, ha]
    simp only [List.map_append, List.length_append, critList, List.map_cons,
      List.map_nil, List.length_cons, List.length_nil]
    omega

end MissingFieldLemmas

section LocationMissingCoords

variable {α : Type} [LinearOrderedField α] [FloorRing α]

theorem locationCriterion_missing_coords (hav : α → α → α → α → α)
    (property : RecommendationProperty α)
    (preferences : RecommendationPreferences α) (plat plng : α)
    (hplat : preferences.latitude = some plat)
    (hplng : preferences.longitude = some plng)
    (hmiss : property.latitude = none ∨ property.longitude = none) :
    (preferences.location = none →
      locationCriterion hav property preferences =
        some ⟨"Property coordinates missing, could not score geo-distance", 0⟩) ∧
    (∀ loc, preferences.location = some loc → loc ≠ "" →
      locationCriterion hav property preferences =
        some (if jsIncludes (lowerStr property.location) (lowerStr loc) = true
          then ⟨"Property coordinates missing, text location fallback matched", 25⟩
          else ⟨"Property coordinates missing, text location fallback did not match", 0⟩)) ∧
    (scoreProperty hav property preferences).maxPossible =
      25 + (scoreProperty hav property { preferences with
        latitude := none, longitude := none, location := none }).maxPossible ∧
    (scoreProperty hav property preferences).explanation.length =
      1 + (scoreProperty hav property { preferences with
        latitude := none, longitude := none, location := none }).explanation.length := by
  have hfall : ∀ goal : Option (RecommendationExplanation α),
      (match preferences.location with
        | some loc =>
          if loc = "" then
            some ⟨"Property coordinates missing, could not score geo-distance", 0⟩
          else if jsIncludes (lowerStr property.location) (lowerStr loc) then
            some ⟨"Property coordinates missing, text location fallback matched", 25⟩
          else
            some ⟨"Property coordinates missing, text location fallback did not match", 0⟩
        | none =>
          some ⟨"Property coordinates missing, could not score geo-distance", 0⟩) = goal →
      locationCriterion hav property preferences = goal := by
    intro goal hgoal
    unfold locationCriterion
    rw [hplat, hplng]
    rcases hmiss with h | h <;>
      cases hA : property.latitude <;> cases hB : property.longitude <;>
        first
          | (exfalso
             rw [hA] at h
             exact Option.noConfusion h)
          | (exfalso
             rw [hB] at h
             exact Option.noConfusion h)
          | exact hgoal
  have hsome : ∃ e, locationCriterion hav property preferences = some e := by
    cases hq : preferences.location with
    | none =>
      exact ⟨⟨"Property coordinates missing, could not score geo-distance", 0⟩,
        hfall _ (by rw [hq])⟩
    | some loc =>
      by_cases hl0 : loc = ""
      · exact ⟨⟨"Property coordinates missing, could not score geo-distance", 0⟩,
          hfall _ (by
            rw [hq]
            dsimp only
            rw [if_pos hl0])⟩
      · by_cases hj : jsIncludes (lowerStr property.location) (lowerStr loc) = true
        · exact ⟨⟨"Property coordinates missing, text location fallback matched", 25⟩,
            hfall _ (by
              rw [hq]
              dsimp only
              rw [if_neg hl0, if_pos hj])⟩
        · exact ⟨⟨"Property coordinates missing, text location fallback did not match", 0⟩,
            hfall _ (by
              rw [hq]
              dsimp only
              rw [if_neg hl0, if_neg hj])⟩
  have hl' : locationCriterion hav property { preferences with
      latitude := none, longitude := none, location := none } = none := rfl
  have hb : priceCriterion property { preferences with
      latitude := none, longitude := none, location := none } =
      priceCriterion property preferences := priceCriterion_congr property rfl
  have hr : roiCriterion property { preferences with
      latitude := none, longitude := none, location := none } =
      roiCriterion property preferences := roiCriterion_congr property rfl
  have ha : areaCriterion property { preferences with
      latitude := none, longitude := none, location := none } =
      areaCriterion property preferences := areaCriterion_congr property rfl
  have hd : distanceCriterion property { preferences with
      latitude := none, longitude := none, location := none } =
      distanceCriterion property preferences := distanceCriterion_congr property rfl
  obtain ⟨e, he⟩ := hsome
  refine ⟨?_, ?_, ?_, ?_⟩
  · intro hq
    exact hfall _ (by rw [hq])
  · intro loc hq hl0
    refine hfall _ ?_
    rw [hq]
    dsimp only
    rw [if_neg hl0]
    by_cases hj : jsIncludes (lowerStr property.location) (lowerStr loc) = true
    · rw [if_pos hj, if_pos hj]
    · rw [if_neg hj, if_neg hj]
  · show ((scoreCriteria hav property preferences).map (fun e => e.1)).sum =
      25 + ((scoreCriteria hav property { preferences with
        latitude := none, longitude := none, location := none }).map
          (fun e => e.1)).sum
    unfold scoreCriteria
    rw [he, hl', hb, hr, ha, hd]
    simp only [List.map_append, List.sum_append, critList, List.map_cons,
      List.map_nil, List.sum_cons, List.sum_nil]
    ring
  · show ((scoreCriteria hav property preferences).map (fun e => e.2)).length =
      1 + ((scoreCriteria hav property { preferences with
        latitude := none, longitude := none, location := none }).map
          (fun e => e.2)).length
    unfold scoreCriteria
    rw [he, hl', hb, hr, ha, hd]
    simp only [List.map_append, List.length_append, critList, List.map_cons,
      List.map_nil, List.length_cons, List.length_nil]
    omega

end LocationMissingCoords

/-- C5 (amended): for each active criterion whose listing field is absent,
`scoreProperty` awards exactly 0 points, still counts the full weight in
`maxPossible`, and still emits exactly one explanation entry — except that the
location criterion in coordinate mode, when the listing lacks coordinates but
a non-empty `preferences.location` text is present, falls back to binary text
matching (possibly awarding the full 25 points); with no usable fallback it
awards 0.  No case raises an error: every case returns a value. -/
theorem scoreProperty_missing_field_amended {α : Type} [LinearOrderedField α]
    [FloorRing α] (hav : α → α → α → α → α)
    (property : RecommendationProperty α)
    (preferences : RecommendationPreferences α) :
    (∀ b, preferences.budget = some b → 0 < b → property.priceNpr = none →
      priceCriterion property preferences =
        some ⟨"Price missing, could not score budget closeness", 0⟩ ∧
      (scoreProperty hav property preferences).maxPossible =
        30 + (scoreProperty hav property
          { preferences with budget := none }).maxPossible ∧
      (scoreProperty hav property preferences).explanation.length =
        1 + (scoreProperty hav property
          { preferences with budget := none }).explanation.length) ∧
    (∀ r, preferences.roiPercent = some r → 0 < r → property.roiPercent = none →
      roiCriterion property preferences =
        some ⟨"ROI missing, could not score ROI preference", 0⟩ ∧
      (scoreProperty hav property preferences).maxPossible =
        15 + (scoreProperty hav property
          { preferences with roiPercent := none }).maxPossible ∧
      (scoreProperty hav property preferences).explanation.length =
        1 + (scoreProperty hav property
          { preferences with roiPercent := none }).explanation.length) ∧
    (∀ a, preferences.areaSqft = some a → 0 < a → property.areaSqft = none →
      areaCriterion property preferences =
        some ⟨"Area missing, could not score area preference", 0⟩ ∧
      (scoreProperty hav property preferences).maxPossible =
        15 + (scoreProperty hav property
          { preferences with areaSqft := none }).maxPossible ∧
      (scoreProperty hav property preferences).explanation.length =
        1 + (scoreProperty hav property
          { preferences with areaSqft := none }).explanation.length) ∧
    (∀ d, preferences.maxDistanceFromHighway = some d → 0 < d →
      property.distanceFromHighway = none →
      distanceCriterion property preferences =
        some ⟨"Distance from highway missing, could not score distance preference", 0⟩ ∧
      (scoreProperty hav property preferences).maxPossible =
        15 + (scoreProperty hav property
          { preferences with maxDistanceFromHighway := none }).maxPossible ∧
      (scoreProperty hav property preferences).explanation.length =
        1 + (scoreProperty hav property
          { preferences with maxDistanceFromHighway := none }).explanation.length) ∧
    (∀ plat plng, preferences.latitude = some plat →
      preferences.longitude = some plng →
      (property.latitude = none ∨ property.longitude = none) →
      (preferences.location = none →
        locationCriterion hav property preferences =
          some ⟨"Property coordinates missing, could not score geo-distance", 0⟩) ∧
      (∀ loc, preferences.location = some loc → loc ≠ "" →
        locationCriterion hav property preferences =
          some (if jsIncludes (lowerStr property.location) (lowerStr loc) = true
            then ⟨"Property coordinates missing, text location fallback matched", 25⟩
            else ⟨"Property coordinates missing, text location fallback did not match", 0⟩)) ∧
      (scoreProperty hav property preferences).maxPossible =
        25 + (scoreProperty hav property { preferences with
          latitude := none, longitude := none, location := none }).maxPossible ∧
      (scoreProperty hav property preferences).explanation.length =
        1 + (scoreProperty hav property { preferences with
          latitude := none, longitude := none, location := none }).explanation.length) :=
  ⟨fun b hb hb0 hp => priceCriterion_missing_field hav property preferences b hb hb0 hp,
   fun r hr hr0 hp => roiCriterion_missing_field hav property preferences r hr hr0 hp,
   fun a ha ha0 hp => areaCriterion_missing_field hav property preferences a ha ha0 hp,
   fun d hd hd0 hp => distanceCriterion_missing_field hav property preferences d hd hd0 hp,
   fun plat plng hplat hplng hmiss =>
     locationCriterion_missing_coords hav property preferences plat plng hplat hplng hmiss⟩

/-- Listing without coordinates, used against claim C5. -/
def c5Property : RecommendationProperty ℚ :=
  { location := "Kathmandu Valley", categoryId := 1, status := "available" }

/-- Preferences with coordinates and a matching location text, used against
claim C5. -/
def c5Preferences : RecommendationPreferences ℚ :=
  { location := some "kath", latitude := some 27, longitude := some 85 }

/-- C5 (counterexample): the location criterion is active in coordinate mode
and the listing lacks the coordinates the criterion evaluates, yet the text
fallback awards the full 25 points instead of the 0 points the claim
demands. -/
theorem scoreProperty_missing_field_claim_cex :
    c5Property.latitude = none ∧ c5Property.longitude = none ∧
    c5Preferences.latitude = some 27 ∧ c5Preferences.longitude = some 85 ∧
    locationCriterion (fun _ _ _ _ => (0 : ℚ)) c5Property c5Preferences =
      some ⟨"Property coordinates missing, text location fallback matched", 25⟩ ∧
    (scoreProperty (fun _ _ _ _ => (0 : ℚ)) c5Property c5Preferences).score = 25 := by
  refine ⟨rfl, rfl, rfl, rfl, rfl, ?_⟩
  have hcrit : scoreCriteria (fun _ _ _ _ => (0 : ℚ)) c5Property c5Preferences =
      [((25 : ℚ),
        ⟨"Property coordinates missing, text location fallback matched", 25⟩)] := rfl
  show round2 ((scoreCriteria (fun _ _ _ _ => (0 : ℚ)) c5Property
      c5Preferences).map (fun e => e.2.points)).sum = 25
  rw [hcrit]
  simp only [List.map_cons, List.map_nil, List.sum_cons, List.sum_nil, add_zero]
  exact round2_hundredths hundredths_25

/-- Listing without a price, used by the C5 witness. -/
def c5WitnessProperty : RecommendationProperty ℚ :=
  { location := "Bhaktapur", categoryId := 4, status := "available" }

/-- Preferences with a positive budget, used by the C5 witness. -/
def c5WitnessPreferences : RecommendationPreferences ℚ :=
  { budget := some 5000000 }

theorem scoreProperty_missing_field_amended_witness :
    priceCriterion c5WitnessProperty c5WitnessPreferences =
      some ⟨"Price missing, could not score budget closeness", 0⟩ ∧
    (scoreProperty (fun _ _ _ _ => (0 : ℚ)) c5WitnessProperty
      c5WitnessPreferences).maxPossible =
      30 + (scoreProperty (fun _ _ _ _ => (0 : ℚ)) c5WitnessProperty
        { c5WitnessPreferences with budget := none }).maxPossible ∧
    (scoreProperty (fun _ _ _ _ => (0 : ℚ)) c5WitnessProperty
      c5WitnessPreferences).explanation.length =
      1 + (scoreProperty (fun _ _ _ _ => (0 : ℚ)) c5WitnessProperty
        { c5WitnessPreferences with budget := none }).explanation.length :=
  (scoreProperty_missing_field_amended (fun _ _ _ _ => 0) c5WitnessProperty
    c5WitnessPreferences).1 5000000 rfl (by norm_num) rfl

/-- C4: when the sanitized must-have constraints carry both price bounds with
`minPrice > maxPrice`, the handler answers the 400 validation response, and
the outcome is independent of the catalog, the distance function and the
geocoder — no catalog query, hard-filtering or scoring influences it. -/
theorem getRecommendations_rejects_invalid_price_range {α : Type}
    [LinearOrderedField α] [FloorRing α]
    (hav : α → α → α → α → α) (geocode : String → Option (α × α))
    (findAll : RecommendationMustHave α → List (RecommendationProperty α))
    (body : RecommendationRequestBody α)
    (m : RecommendationMustHave α) (mn mx : α)
    (hm : body.mustHave = some m)
    (hmn : m.minPrice = some mn) (hmx : m.maxPrice = some mx)
    (hlt : mx < mn) :
    getRecommendations hav geocode findAll body =
      .badRequest "Invalid constraints: minPrice cannot be greater than maxPrice" ∧
    ∀ (hav2 : α → α → α → α → α) (geocode2 : String → Option (α × α))
      (findAll2 : RecommendationMustHave α → List (RecommendationProperty α)),
      getRecommendations hav2 geocode2 findAll2 body =
        getRecommendations hav geocode findAll body := by
  have hcond : (match (sanitizeMustHave body.mustHave).minPrice,
      (sanitizeMustHave body.mustHave).maxPrice with
      | some a, some b => decide (b < a)
      | _, _ => false) = true := by
    rw [hm]
    show (match m.minPrice, m.maxPrice with
      | some a, some b => decide (b < a)
      | _, _ => false) = true
    rw [hmn, hmx]
    simp [hlt]
  have hgen : ∀ (hav2 : α → α → α → α → α)
      (geocode2 : String → Option (α × α))
      (findAll2 : RecommendationMustHave α → List (RecommendationProperty α)),
      getRecommendations hav2 geocode2 findAll2 body =
        .badRequest "Invalid constraints: minPrice cannot be greater than maxPrice" := by
    intro hav2 geocode2 findAll2
    unfold getRecommendations
    dsimp only
    split
    · rfl
    next hfalse => exact absurd hcond hfalse
  exact ⟨hgen hav geocode findAll,
    fun hav2 geocode2 findAll2 =>
      (hgen hav2 geocode2 findAll2).trans (hgen hav geocode findAll).symm⟩

/-- Must-have constraints with `minPrice = 10 > 5 = maxPrice`, used by the C4
witness. -/
def c4MustHave : RecommendationMustHave ℚ :=
  { minPrice := some 10, maxPrice := some 5 }

/-- Request body carrying `c4MustHave`, used by the C4 witness. -/
def c4Body : RecommendationRequestBody ℚ := { mustHave := some c4MustHave }

theorem getRecommendations_rejects_invalid_price_range_witness :
    getRecommendations (fun _ _ _ _ => (0 : ℚ)) (fun _ => none) (fun _ => [])
      c4Body =
      .badRequest "Invalid constraints: minPrice cannot be greater than maxPrice" :=
  (getRecommendations_rejects_invalid_price_range _ _ _ c4Body c4MustHave 10 5
    rfl rfl rfl (by norm_num)).1

/-- C10: whenever the handler answers with the 200 payload, the pagination
metadata satisfies `totalPages = max 1 ⌈total / limit⌉` (hence at least 1 even
with zero surviving listings), `hasNext ↔ page < totalPages` and
`hasPrev ↔ page > 1`; an empty result set reports `totalPages = 1` and no next
page. -/
theorem getRecommendations_pagination {α : Type} [LinearOrderedField α]
    [FloorRing α] (hav : α → α → α → α → α)
    (geocode : String → Option (α × α))
    (findAll : RecommendationMustHave α → List (RecommendationProperty α))
    (body : RecommendationRequestBody α)
    (data : List (RankedProperty α)) (pag : Pagination)
    (h : getRecommendations hav geocode findAll body = .ok data pag) :
    pag.totalPages = max 1 ⌈(pag.total : α) / (pag.limit : α)⌉ ∧
    1 ≤ pag.totalPages ∧
    1 ≤ pag.page ∧
    (pag.hasNext = true ↔ pag.page < pag.totalPages) ∧
    (pag.hasPrev = true ↔ 1 < pag.page) ∧
    (pag.total = 0 → pag.totalPages = 1 ∧ pag.hasNext = false) := by
  unfold getRecommendations at h
  dsimp only at h
  split at h
  · exact HandlerResult.noConfusion h
  · injection h with hdata hpag
    subst hpag
    refine ⟨rfl, le_max_left _ _, le_max_left _ _, ?_, ?_, ?_⟩
    · show decide _ = true ↔ _
      exact decide_eq_true_iff
    · show decide _ = true ↔ _
      exact decide_eq_true_iff
    · intro h0
      dsimp only at h0
      constructor
      · show max 1 ⌈(((List.mergeSort _ rankedBefore).length : ℕ) : α) /
            ((50 ⊓ (1 ⊔ jsTrunc (jsOrNum body.limit 20)) : ℤ) : α)⌉ = 1
        rw [h0]
        simp
      · show decide ((1 ⊔ jsTrunc (jsOrNum body.page 1)) <
            max 1 ⌈(((List.mergeSort _ rankedBefore).length : ℕ) : α) /
              ((50 ⊓ (1 ⊔ jsTrunc (jsOrNum body.limit 20)) : ℤ) : α)⌉) = false
        rw [h0]
        simp

theorem getRecommendations_pagination_witness :
    (1 : ℤ) ≤ (⟨1, 20, 0, 1, false, false⟩ : Pagination).totalPages ∧
    (⟨1, 20, 0, 1, false, false⟩ : Pagination).hasNext = false := by
  have hrun : getRecommendations (fun _ _ _ _ => (0 : ℚ)) (fun _ => none)
      (fun _ => []) ({} : RecommendationRequestBody ℚ) =
      .ok [] ⟨1, 20, 0, 1, false, false⟩ := by
    unfold getRecommendations
    dsimp only
    split
    next hcond => exact absurd hcond (by decide)
    next =>
      norm_num [sanitizeMustHave, sanitizePreferences, resolveCoordinates,
        applyHardFilters, jsOrNum, jsTrunc]
  have hthm := getRecommendations_pagination (fun _ _ _ _ => (0 : ℚ))
    (fun _ => none) (fun _ => []) {} [] ⟨1, 20, 0, 1, false, false⟩ hrun
  exact ⟨hthm.2.1, (hthm.2.2.2.2.2 rfl).2⟩
